import Mathlib

/-!
Verification of the failure-prediction / risk-scoring engine and its polling
scheduler, shallowly embedded from the backend sources:
  backend/app/services/ai_prediction_service.py (MockAIPredictionEngine),
  backend/app/tasks/sensor_polling.py,
  backend/app/scheduler.py.

Numeric channel values, probabilities and scores are modelled as rationals.
Rounding a value to two decimal places (the source formats with
Decimal(f-string with .2f)) is modelled as rounding value*100 to the nearest
integer and dividing back by 100.
-/

namespace InspectionAI

/-- Rounding to two decimal places, the model of the source's two-decimal
Decimal formatting. -/
def round2 (q : ℚ) : ℚ := ((round (q * 100) : ℤ) : ℚ) / 100

/-- ConsequenceLevel enumeration from backend/app/models/inspection.py. -/
inductive ConsequenceLevel where
  | low
  | medium
  | high
  | critical
  deriving DecidableEq, Repr

/-- PriorityLevel enumeration from backend/app/models/inspection.py. -/
inductive PriorityLevel where
  | low
  | medium
  | high
  | critical
  deriving DecidableEq, Repr

/-- InspectionStatus enumeration from backend/app/models/inspection.py. -/
inductive InspectionStatus where
  | not_started
  | in_progress
  | completed
  | on_hold
  | cancelled
  deriving DecidableEq, Repr

/-- SensorDataCreate schema from backend/app/schemas/inspection.py: six
optional numeric channels plus optional notes. -/
structure SensorDataCreate where
  pressure : Option ℚ
  temperature : Option ℚ
  wall_thickness : Option ℚ
  corrosion_rate : Option ℚ
  vibration : Option ℚ
  flow_rate : Option ℚ
  notes : Option String
  deriving DecidableEq, Repr

namespace MockAIPredictionEngine

/-- Pressure bucket score from calculate_pof, THRESHOLDS.pressure =
(safe 10, warning 15, critical 20). -/
def pressureScore (v : ℚ) : ℚ :=
  if 20 ≤ v then 90 else if 15 ≤ v then 60 else if 10 ≤ v then 30 else 10

/-- Temperature bucket score from calculate_pof, THRESHOLDS.temperature =
(safe 80, warning 100, critical 120). -/
def temperatureScore (v : ℚ) : ℚ :=
  if 120 ≤ v then 85 else if 100 ≤ v then 55 else if 80 ≤ v then 25 else 5

/-- Wall-thickness bucket score from calculate_pof (inverse logic),
THRESHOLDS.wall_thickness = (safe 10, warning 7, critical 5). -/
def wallThicknessScore (v : ℚ) : ℚ :=
  if v ≤ 5 then 95 else if v ≤ 7 then 65 else if v ≤ 10 then 35 else 15

/-- Corrosion-rate bucket score from calculate_pof, THRESHOLDS.corrosion_rate =
(safe 0.1, warning 0.3, critical 0.5). -/
def corrosionRateScore (v : ℚ) : ℚ :=
  if (0.5 : ℚ) ≤ v then 88 else if (0.3 : ℚ) ≤ v then 58
  else if (0.1 : ℚ) ≤ v then 28 else 8

/-- Vibration bucket score from calculate_pof, THRESHOLDS.vibration =
(safe 2.8, warning 4.5, critical 7.0). -/
def vibrationScore (v : ℚ) : ℚ :=
  if (7 : ℚ) ≤ v then 80 else if (4.5 : ℚ) ≤ v then 50
  else if (2.8 : ℚ) ≤ v then 20 else 5

/-- Flow-rate bucket score from calculate_pof, THRESHOLDS.flow_rate =
(safe 50, warning 80, critical 100). -/
def flowRateScore (v : ℚ) : ℚ :=
  if 100 ≤ v then 75 else if 80 ≤ v then 45 else if 50 ≤ v then 15 else 5

/-- The risk_scores list built by calculate_pof: one bucket score per present
channel, in source order (pressure, temperature, wall_thickness,
corrosion_rate, vibration, flow_rate). -/
def riskScores (sd : SensorDataCreate) : List ℚ :=
  (sd.pressure.map pressureScore).toList ++
  (sd.temperature.map temperatureScore).toList ++
  (sd.wall_thickness.map wallThicknessScore).toList ++
  (sd.corrosion_rate.map corrosionRateScore).toList ++
  (sd.vibration.map vibrationScore).toList ++
  (sd.flow_rate.map flowRateScore).toList

/-- MockAIPredictionEngine.calculate_pof: average of present bucket scores,
boosted by 1.2 (capped 95) when at least three scores are ≥ 75, else by 1.1
(capped 90) when at least two are; fixed 15.00 when no channel is present;
rounded to two decimals. -/
def calculate_pof (sd : SensorDataCreate) : ℚ :=
  let scores := riskScores sd
  if scores.isEmpty then 15
  else
    let avg_pof := scores.sum / (scores.length : ℚ)
    let critical_count := (scores.filter (fun s => decide ((75 : ℚ) ≤ s))).length
    let boosted :=
      if 3 ≤ critical_count then min 95 (avg_pof * (1.2 : ℚ))
      else if 2 ≤ critical_count then min 90 (avg_pof * (1.1 : ℚ))
      else avg_pof
    round2 boosted

/-- Contribution of one optional channel to the CoF point total. The source
guards each channel with Python truthiness (`if sensor_data.pressure and ...`),
so a present value of 0 contributes nothing even when the threshold test would
pass; the nonzero conjunct models that truthiness check. -/
def cofContrib (o : Option ℚ) (pass : ℚ → Prop) [DecidablePred pass]
    (pts : ℕ) : ℕ :=
  match o with
  | none => 0
  | some v => if v ≠ 0 ∧ pass v then pts else 0

/-- MockAIPredictionEngine.calculate_cof: point total from critical channel
conditions (pressure ≥ 20 gives 3, temperature ≥ 120 gives 3,
wall_thickness ≤ 5 gives 4, corrosion_rate ≥ 0.5 gives 3, each behind a
truthiness guard), plus 2 when pof ≥ 80 or 1 when pof ≥ 60; the total maps to
critical at ≥ 8, high at ≥ 5, medium at ≥ 3, else low. -/
def calculate_cof (sd : SensorDataCreate) (pof : ℚ) : ConsequenceLevel :=
  let cof_score : ℕ :=
    cofContrib sd.pressure (fun v => 20 ≤ v) 3 +
    cofContrib sd.temperature (fun v => 120 ≤ v) 3 +
    cofContrib sd.wall_thickness (fun v => v ≤ 5) 4 +
    cofContrib sd.corrosion_rate (fun v => (0.5 : ℚ) ≤ v) 3 +
    (if 80 ≤ pof then 2 else if 60 ≤ pof then 1 else 0)
  if 8 ≤ cof_score then .critical
  else if 5 ≤ cof_score then .high
  else if 3 ≤ cof_score then .medium
  else .low

/-- Number of non-null channels, as summed in calculate_confidence. -/
def availableParams (sd : SensorDataCreate) : ℕ :=
  (if sd.pressure.isSome then 1 else 0) +
  (if sd.temperature.isSome then 1 else 0) +
  (if sd.wall_thickness.isSome then 1 else 0) +
  (if sd.corrosion_rate.isSome then 1 else 0) +
  (if sd.vibration.isSome then 1 else 0) +
  (if sd.flow_rate.isSome then 1 else 0)

/-- MockAIPredictionEngine.calculate_confidence, with the uniform random
variance in [-5, 5] made an explicit argument: base completeness confidence
(count/6 × 100), a 0.8 penalty when wall_thickness or corrosion_rate is
missing, then clamp of base + variance to [30, 95] and rounding to two
decimals. -/
def calculate_confidence (sd : SensorDataCreate) (variance : ℚ) : ℚ :=
  let base0 : ℚ := ((availableParams sd : ℚ) / 6) * 100
  let base_confidence : ℚ :=
    if sd.wall_thickness.isNone ∨ sd.corrosion_rate.isNone
    then base0 * (0.8 : ℚ) else base0
  round2 (max 30 (min 95 (base_confidence + variance)))

/-- MockAIPredictionEngine.generate_recommendation: risk-matrix priority with
its canned action text per tier. -/
def generate_recommendation (pof : ℚ) (cof : ConsequenceLevel) :
    String × PriorityLevel :=
  if cof = .critical ∨ 80 ≤ pof then
    ("IMMEDIATE ACTION REQUIRED: Schedule emergency inspection and shutdown if necessary. Inspect asset integrity immediately.",
     .critical)
  else if cof = .high ∨ 60 ≤ pof then
    ("Schedule urgent inspection within 24-48 hours. Monitor parameters continuously. Prepare maintenance plan.",
     .high)
  else if cof = .medium ∨ 40 ≤ pof then
    ("Plan inspection within 1-2 weeks. Increase monitoring frequency. Review maintenance schedule.",
     .medium)
  else
    ("Continue routine monitoring. Schedule inspection as per normal maintenance plan. No immediate action required.",
     .low)

/-- The consequence weight table used by predict for the risk score. -/
def cofWeight : ConsequenceLevel → ℚ
  | .low => 1
  | .medium => 2
  | .high => 3
  | .critical => 4

end MockAIPredictionEngine

/-! Persistence model for predict (ai_prediction_service.py lines 246-315).
The SQLAlchemy session is modelled as a transactional store: rows added by
`db.add` sit in a pending buffer, `db.flush` sends them inside the still-open
transaction (assigning the sensor row its id), and the single `db.commit`
makes all pending rows durable at once.  A fault injected at flush or commit
makes that step raise, leaving the committed rows untouched. -/

/-- SensorData row from backend/app/models/inspection.py, as constructed by
predict. -/
structure SensorDataRow where
  id : ℕ
  inspection_id : ℕ
  pressure : Option ℚ
  temperature : Option ℚ
  wall_thickness : Option ℚ
  corrosion_rate : Option ℚ
  vibration : Option ℚ
  flow_rate : Option ℚ
  notes : Option String
  recorded_by_id : ℕ
  deriving DecidableEq, Repr

/-- FailurePrediction row from backend/app/models/inspection.py, as
constructed by predict. -/
structure FailurePredictionRow where
  sensor_data_id : ℕ
  inspection_id : ℕ
  probability_of_failure : ℚ
  consequence_of_failure : InspectionAI.ConsequenceLevel
  confidence_score : ℚ
  risk_score : ℚ
  recommended_action : String
  priority : InspectionAI.PriorityLevel
  model_version : String
  deriving DecidableEq, Repr

/-- Transactional database state: committed rows are durable, pending rows
belong to the open transaction and become durable only at commit. -/
structure DBState where
  committed_sensor_data : List SensorDataRow
  committed_predictions : List FailurePredictionRow
  pending_sensor_data : List SensorDataRow
  pending_predictions : List FailurePredictionRow
  next_id : ℕ
  deriving DecidableEq, Repr

/-- Injected storage faults: the flush of the sensor row or the final commit
can raise. -/
inductive DBFault where
  | flush_fail
  | commit_fail
  deriving DecidableEq, Repr

/-- db.add(sensor_db): stage the sensor row in the open transaction. -/
def DBState.addSensorData (db : DBState) (row : SensorDataRow) : DBState :=
  { db with pending_sensor_data := db.pending_sensor_data ++ [row] }

/-- db.add(prediction_db): stage the prediction row in the open transaction. -/
def DBState.addPrediction (db : DBState) (row : FailurePredictionRow) :
    DBState :=
  { db with pending_predictions := db.pending_predictions ++ [row] }

/-- db.flush(): send pending rows inside the open transaction, assigning ids;
nothing becomes durable.  On a fault it raises and commits nothing. -/
def DBState.flush (db : DBState) (fault : Option DBFault) :
    Except (String × DBState) DBState :=
  if fault = some .flush_fail then .error ("flush failed", db)
  else .ok { db with next_id := db.next_id + 1 }

/-- db.commit(): make every pending row durable atomically; on a fault it
raises and commits nothing. -/
def DBState.commit (db : DBState) (fault : Option DBFault) :
    Except (String × DBState) DBState :=
  if fault = some .commit_fail then .error ("commit failed", db)
  else .ok { db with
    committed_sensor_data := db.committed_sensor_data ++ db.pending_sensor_data,
    committed_predictions := db.committed_predictions ++ db.pending_predictions,
    pending_sensor_data := [],
    pending_predictions := [] }

namespace MockAIPredictionEngine

/-- MockAIPredictionEngine.predict: stage the sensor row, flush to obtain its
id, compute pof / cof / confidence / recommendation and the weighted risk
score, stage the prediction row, and commit both rows in one transaction.
The confidence variance and the injected fault are explicit arguments. -/
def predict (db : DBState) (fault : Option DBFault) (inspection_id : ℕ)
    (sensor_data : SensorDataCreate) (variance : ℚ) (user_id : ℕ) :
    Except (String × DBState) (DBState × SensorDataRow × FailurePredictionRow) :=
  let sensor_db : SensorDataRow :=
    { id := db.next_id
      inspection_id := inspection_id
      pressure := sensor_data.pressure
      temperature := sensor_data.temperature
      wall_thickness := sensor_data.wall_thickness
      corrosion_rate := sensor_data.corrosion_rate
      vibration := sensor_data.vibration
      flow_rate := sensor_data.flow_rate
      notes := sensor_data.notes
      recorded_by_id := user_id }
  match (db.addSensorData sensor_db).flush fault with
  | .error e => .error e
  | .ok db2 =>
    let pof := calculate_pof sensor_data
    let cof := calculate_cof sensor_data pof
    let confidence := calculate_confidence sensor_data variance
    let recommendation := generate_recommendation pof cof
    let risk_score := round2 (pof * cofWeight cof)
    let prediction_db : FailurePredictionRow :=
      { sensor_data_id := sensor_db.id
        inspection_id := inspection_id
        probability_of_failure := pof
        consequence_of_failure := cof
        confidence_score := confidence
        risk_score := risk_score
        recommended_action := recommendation.1
        priority := recommendation.2
        model_version := "mock_v1.0" }
    match (db2.addPrediction prediction_db).commit fault with
    | .error e => .error e
    | .ok db3 => .ok (db3, sensor_db, prediction_db)

end MockAIPredictionEngine

/-! Polling task model (backend/app/tasks/sensor_polling.py).  Simulating a
sensor reading and generating the assessment for one inspection is the
per-item body; it is abstracted as a `process` function that may raise
(return an error).  The cycle filters the in-progress inspections and runs
the body for each inside try/except-continue, so an error is recorded as a
skipped item rather than propagated. -/

/-- Inspection record, with the fields the polling code reads. -/
structure Inspection where
  id : ℕ
  status : InspectionAI.InspectionStatus
  primary_inspector_id : Option ℕ
  deriving DecidableEq, Repr

/-- poll_sensors_and_predict: query inspections whose status is in_progress
and run the per-item body for each, catching any error and continuing; the
result records, per polled inspection, the prediction produced, or none when
that item raised.  The function is total: no item error escapes the cycle. -/
def poll_sensors_and_predict {α : Type} (inspections : List Inspection)
    (process : Inspection → Except String α) : List (ℕ × Option α) :=
  (inspections.filter
      (fun i => decide (i.status = InspectionStatus.in_progress))).map
    (fun i => (i.id, (process i).toOption))

/-- The inspection lookup db.query(Inspection).filter(id == ...).first(). -/
def find_inspection (inspections : List Inspection) (inspection_id : ℕ) :
    Option Inspection :=
  inspections.find? (fun i => decide (i.id = inspection_id))

/-- trigger_sensor_poll_for_inspection: look the inspection up; return None
when it is absent (logged as an error) and None when its status is not
in_progress (logged as a warning); otherwise run the per-item body, returning
its result, or None when it raised. -/
def trigger_sensor_poll_for_inspection {α : Type}
    (inspections : List Inspection) (process : Inspection → Except String α)
    (inspection_id : ℕ) : Option α :=
  match find_inspection inspections inspection_id with
  | none => none
  | some inspection =>
    if inspection.status ≠ InspectionStatus.in_progress then none
    else (process inspection).toOption

/-! Scheduler model (backend/app/scheduler.py).  SensorPollingScheduler holds
a running flag and a worker thread; the loop body runs while the flag is set
and exits once stop clears it and joins.  The live polling loops are counted
explicitly: start spawns one when not already running, stop joins it. -/

/-- SensorPollingScheduler state: the polling interval, the running flag, and
the number of live polling loops (threads executing _run). -/
structure SensorPollingScheduler where
  interval : ℕ
  running : Bool
  activeLoops : ℕ
  deriving DecidableEq, Repr

/-- SensorPollingScheduler constructor: not running, no loop. -/
def SensorPollingScheduler.init (interval : ℕ) : SensorPollingScheduler :=
  { interval := interval, running := false, activeLoops := 0 }

/-- SensorPollingScheduler.start: warn and return unchanged when already
running; otherwise set the flag and spawn the polling thread. -/
def SensorPollingScheduler.start (s : SensorPollingScheduler) :
    SensorPollingScheduler :=
  if s.running then s
  else { s with running := true, activeLoops := s.activeLoops + 1 }

/-- SensorPollingScheduler.stop: warn and return unchanged when not running;
otherwise clear the flag, making the loop exit, and join the thread. -/
def SensorPollingScheduler.stop (s : SensorPollingScheduler) :
    SensorPollingScheduler :=
  if s.running then { s with running := false, activeLoops := s.activeLoops - 1 }
  else s

/-- Scheduler states reachable from construction through start/stop calls. -/
inductive SensorPollingScheduler.Reachable : SensorPollingScheduler → Prop
  | init (interval : ℕ) : Reachable (SensorPollingScheduler.init interval)
  | start {s : SensorPollingScheduler} : Reachable s → Reachable s.start
  | stop {s : SensorPollingScheduler} : Reachable s → Reachable s.stop

/-! Specification-side definitions and claim theorems. -/

namespace MockAIPredictionEngine

/-- Channel contribution to the CoF point total as the specification words it:
the channel contributes whenever it is present and passes the threshold test,
with no nonzero guard. -/
def cofContribClaimed (o : Option ℚ) (pass : ℚ → Prop) [DecidablePred pass]
    (pts : ℕ) : ℕ :=
  match o with
  | none => 0
  | some v => if pass v then pts else 0

/-- The point-total-to-level map of calculate_cof. -/
def levelOfScore (n : ℕ) : ConsequenceLevel :=
  if 8 ≤ n then .critical
  else if 5 ≤ n then .high
  else if 3 ≤ n then .medium
  else .low

/-- CoF point total exactly as claim C2 describes it: each of the four
channels contributes when present and past its critical threshold. -/
def cof_score_claimed (sd : SensorDataCreate) (pof : ℚ) : ℕ :=
  cofContribClaimed sd.pressure (fun v => 20 ≤ v) 3 +
  cofContribClaimed sd.temperature (fun v => 120 ≤ v) 3 +
  cofContribClaimed sd.wall_thickness (fun v => v ≤ 5) 4 +
  cofContribClaimed sd.corrosion_rate (fun v => (0.5 : ℚ) ≤ v) 3 +
  (if 80 ≤ pof then 2 else if 60 ≤ pof then 1 else 0)

/-- The CoF level claim C2 predicts. -/
def cof_level_claimed (sd : SensorDataCreate) (pof : ℚ) : ConsequenceLevel :=
  levelOfScore (cof_score_claimed sd pof)

/-- A truthiness-guarded contribution agrees with the unguarded one whenever
passing the threshold already forces the value to be nonzero. -/
theorem cofContrib_eq_claimed (o : Option ℚ) (pass : ℚ → Prop)
    [DecidablePred pass] (pts : ℕ) (h : ∀ v, pass v → v ≠ 0) :
    cofContrib o pass pts = cofContribClaimed o pass pts := by
  cases o with
  | none => rfl
  | some v =>
    simp only [cofContrib, cofContribClaimed]
    by_cases hp : pass v
    · rw [if_pos ⟨h v hp, hp⟩, if_pos hp]
    · rw [if_neg (fun hc => hp hc.2), if_neg hp]

end MockAIPredictionEngine

open MockAIPredictionEngine

/-- Claim C4: a sensor reading in which all six channels are null makes
calculate_pof return exactly 15.00. -/
theorem calculate_pof_empty_floor (notes : Option String) :
    calculate_pof ⟨none, none, none, none, none, none, notes⟩ = 15 := rfl

/-- Claim C1: every prediction row created by predict carries
risk_score = round2 of probability_of_failure times the consequence weight,
where the weight table is low 1, medium 2, high 3, critical 4 (cofWeight). -/
theorem predict_risk_score_identity (db : DBState) (fault : Option DBFault)
    (inspection_id : ℕ) (sensor_data : SensorDataCreate) (variance : ℚ)
    (user_id : ℕ) :
    match predict db fault inspection_id sensor_data variance user_id with
    | .ok (_, _, prediction_db) =>
        prediction_db.risk_score =
          round2 (prediction_db.probability_of_failure *
            cofWeight prediction_db.consequence_of_failure)
    | .error _ => True := by
  rcases fault with _ | f
  · rfl
  · cases f <;> trivial

/-- Claim C6: for pof in [0, 100], generate_recommendation assigns priority
critical when cof is critical or pof ≥ 80, else high when cof is high or
pof ≥ 60, else medium when cof is medium or pof ≥ 40, else low. -/
theorem generate_recommendation_priority_matrix (pof : ℚ)
    (cof : ConsequenceLevel) (h : 0 ≤ pof ∧ pof ≤ 100) :
    (generate_recommendation pof cof).2 =
      (if cof = .critical ∨ 80 ≤ pof then PriorityLevel.critical
       else if cof = .high ∨ 60 ≤ pof then .high
       else if cof = .medium ∨ 40 ≤ pof then .medium
       else .low) := by
  unfold generate_recommendation
  split_ifs <;> rfl

/-- Witness for claim C6 at pof = 50 with cof = low. -/
theorem generate_recommendation_priority_matrix_witness :
    (generate_recommendation 50 ConsequenceLevel.low).2 =
      (if ConsequenceLevel.low = .critical ∨ (80 : ℚ) ≤ 50 then
          PriorityLevel.critical
       else if ConsequenceLevel.low = .high ∨ (60 : ℚ) ≤ 50 then .high
       else if ConsequenceLevel.low = .medium ∨ (40 : ℚ) ≤ 50 then .medium
       else .low) :=
  generate_recommendation_priority_matrix 50 ConsequenceLevel.low (by decide)

/-- Counterexample to claim C2 as stated: a reading whose wall_thickness is
present and equal to 0 (with every other channel null) satisfies the claimed
procedure's condition wall_thickness ≤ 5, so the claim predicts 4 points and
level medium, but the source's truthiness guard skips the zero value and
calculate_cof returns low. -/
theorem calculate_cof_zero_wall_thickness_counterexample :
    calculate_cof ⟨none, none, some 0, none, none, none, none⟩ 0 =
      ConsequenceLevel.low ∧
    cof_level_claimed ⟨none, none, some 0, none, none, none, none⟩ 0 =
      ConsequenceLevel.medium := by
  constructor <;> rfl

/-- Claim C2 amended: the channel conditions hold as claimed except that
wall_thickness must also be nonzero (the source guards every channel with
Python truthiness; for pressure, temperature and corrosion_rate a present
zero fails the ≥-threshold anyway, so only the wall_thickness clause
changes). -/
theorem calculate_cof_amended (sd : SensorDataCreate) (pof : ℚ) :
    calculate_cof sd pof =
      levelOfScore
        (cofContribClaimed sd.pressure (fun v => 20 ≤ v) 3 +
         cofContribClaimed sd.temperature (fun v => 120 ≤ v) 3 +
         cofContrib sd.wall_thickness (fun v => v ≤ 5) 4 +
         cofContribClaimed sd.corrosion_rate (fun v => (0.5 : ℚ) ≤ v) 3 +
         (if 80 ≤ pof then 2 else if 60 ≤ pof then 1 else 0)) := by
  have h20 : ∀ v : ℚ, 20 ≤ v → v ≠ 0 := by
    intro v hv h0
    rw [h0] at hv
    norm_num at hv
  have h120 : ∀ v : ℚ, 120 ≤ v → v ≠ 0 := by
    intro v hv h0
    rw [h0] at hv
    norm_num at hv
  have h05 : ∀ v : ℚ, (0.5 : ℚ) ≤ v → v ≠ 0 := by
    intro v hv h0
    rw [h0] at hv
    norm_num at hv
  simp only [calculate_cof, levelOfScore,
    cofContrib_eq_claimed sd.pressure _ 3 h20,
    cofContrib_eq_claimed sd.temperature _ 3 h120,
    cofContrib_eq_claimed sd.corrosion_rate _ 3 h05]

/-- Rounding to two decimals keeps a value between two integer bounds, since
the bounds are exact hundredths. -/
theorem round2_between {a b : ℤ} {q : ℚ} (ha : (a : ℚ) ≤ q) (hb : q ≤ (b : ℚ)) :
    (a : ℚ) ≤ round2 q ∧ round2 q ≤ (b : ℚ) := by
  have h1 : a * 100 ≤ round (q * 100) := by
    rw [round_eq, Int.le_floor]
    push_cast
    linarith
  have h2 : round (q * 100) ≤ b * 100 := by
    rw [round_eq]
    have hlt : ⌊q * 100 + 1 / 2⌋ < b * 100 + 1 := by
      rw [Int.floor_lt]
      push_cast
      linarith
    omega
  constructor
  · rw [round2, le_div_iff₀ (by norm_num : (0 : ℚ) < 100)]
    exact_mod_cast h1
  · rw [round2, div_le_iff₀ (by norm_num : (0 : ℚ) < 100)]
    exact_mod_cast h2

/-- The clamp of any value to [30, 95] stays in [30, 95] after rounding to
two decimals. -/
theorem round2_clamp_bounds (x : ℚ) :
    30 ≤ round2 (max 30 (min 95 x)) ∧ round2 (max 30 (min 95 x)) ≤ 95 := by
  have hb := round2_between (a := 30) (b := 95)
    (q := max 30 (min 95 x))
    (by push_cast; exact le_max_left _ _)
    (by push_cast; exact max_le (by norm_num) (min_le_left _ _))
  constructor
  · exact_mod_cast hb.1
  · exact_mod_cast hb.2

/-- Claim C5: for any variance in [-5, 5], calculate_confidence equals the
two-decimal rounding of the clamp to [30, 95] of base + variance, where the
base is the channel-completeness percentage with a 0.8 penalty when
wall_thickness or corrosion_rate is missing; in particular the result always
lies in [30, 95]. -/
theorem calculate_confidence_clamped (sd : SensorDataCreate) (variance : ℚ)
    (h : -5 ≤ variance ∧ variance ≤ 5) :
    calculate_confidence sd variance =
      round2 (max 30 (min 95
        ((availableParams sd : ℚ) / 6 * 100 *
            (if sd.wall_thickness.isNone ∨ sd.corrosion_rate.isNone
             then (0.8 : ℚ) else 1) +
          variance)))
    ∧ 30 ≤ calculate_confidence sd variance
    ∧ calculate_confidence sd variance ≤ 95 := by
  have heq : calculate_confidence sd variance =
      round2 (max 30 (min 95
        ((availableParams sd : ℚ) / 6 * 100 *
            (if sd.wall_thickness.isNone ∨ sd.corrosion_rate.isNone
             then (0.8 : ℚ) else 1) +
          variance))) := by
    simp only [calculate_confidence]
    by_cases hm : sd.wall_thickness.isNone ∨ sd.corrosion_rate.isNone
    · rw [if_pos hm, if_pos hm]
    · rw [if_neg hm, if_neg hm, mul_one]
  refine ⟨heq, ?_, ?_⟩
  · rw [heq]
    exact (round2_clamp_bounds _).1
  · rw [heq]
    exact (round2_clamp_bounds _).2

/-- Witness for claim C5: the all-null reading with variance 0 is clamped up
to the floor of 30. -/
theorem calculate_confidence_clamped_witness :
    calculate_confidence ⟨none, none, none, none, none, none, none⟩ 0 =
      round2 (max 30 (min 95
        ((availableParams ⟨none, none, none, none, none, none, none⟩ : ℚ) / 6 *
            100 *
            (if (Option.none (α := ℚ)).isNone ∨ (Option.none (α := ℚ)).isNone
             then (0.8 : ℚ) else 1) +
          0)))
    ∧ 30 ≤ calculate_confidence ⟨none, none, none, none, none, none, none⟩ 0
    ∧ calculate_confidence ⟨none, none, none, none, none, none, none⟩ 0 ≤ 95 :=
  calculate_confidence_clamped ⟨none, none, none, none, none, none, none⟩ 0
    (by decide)

/-- Claim C3: when at least one channel is present, calculate_pof is the
two-decimal rounding of the average bucket score, boosted by 1.2 and capped
at 95 when at least three channels individually scored ≥ 75, else boosted by
1.1 and capped at 90 when exactly two did. -/
theorem calculate_pof_boost_formula (sd : SensorDataCreate)
    (h : sd.pressure.isSome ∨ sd.temperature.isSome ∨
         sd.wall_thickness.isSome ∨ sd.corrosion_rate.isSome ∨
         sd.vibration.isSome ∨ sd.flow_rate.isSome) :
    calculate_pof sd =
      round2
        (if 3 ≤ ((riskScores sd).filter (fun s => decide ((75 : ℚ) ≤ s))).length
         then min 95 ((riskScores sd).sum / ((riskScores sd).length : ℚ) * (1.2 : ℚ))
         else if ((riskScores sd).filter (fun s => decide ((75 : ℚ) ≤ s))).length = 2
         then min 90 ((riskScores sd).sum / ((riskScores sd).length : ℚ) * (1.1 : ℚ))
         else (riskScores sd).sum / ((riskScores sd).length : ℚ)) := by
  have hne : riskScores sd ≠ [] := by
    rcases h with hc | hc | hc | hc | hc | hc <;>
      obtain ⟨v, hv⟩ := Option.isSome_iff_exists.mp hc <;>
      simp [riskScores, hv]
  simp only [calculate_pof]
  rw [if_neg (by simp [List.isEmpty_iff, hne])]
  congr 1
  by_cases h3 : 3 ≤ ((riskScores sd).filter (fun s => decide ((75 : ℚ) ≤ s))).length
  · rw [if_pos h3, if_pos h3]
  · rw [if_neg h3, if_neg h3]
    by_cases hc2 : ((riskScores sd).filter (fun s => decide ((75 : ℚ) ≤ s))).length = 2
    · rw [if_pos (by omega), if_pos hc2]
    · rw [if_neg (by omega), if_neg hc2]

/-- Witness for claim C3: a reading with only pressure present, in the safe
band. -/
theorem calculate_pof_boost_formula_witness :
    calculate_pof ⟨some 12, none, none, none, none, none, none⟩ =
      round2
        (if 3 ≤ ((riskScores ⟨some 12, none, none, none, none, none, none⟩).filter
              (fun s => decide ((75 : ℚ) ≤ s))).length
         then min 95 ((riskScores ⟨some 12, none, none, none, none, none, none⟩).sum /
             ((riskScores ⟨some 12, none, none, none, none, none, none⟩).length : ℚ) * (1.2 : ℚ))
         else if ((riskScores ⟨some 12, none, none, none, none, none, none⟩).filter
              (fun s => decide ((75 : ℚ) ≤ s))).length = 2
         then min 90 ((riskScores ⟨some 12, none, none, none, none, none, none⟩).sum /
             ((riskScores ⟨some 12, none, none, none, none, none, none⟩).length : ℚ) * (1.1 : ℚ))
         else (riskScores ⟨some 12, none, none, none, none, none, none⟩).sum /
             ((riskScores ⟨some 12, none, none, none, none, none, none⟩).length : ℚ)) :=
  calculate_pof_boost_formula ⟨some 12, none, none, none, none, none, none⟩
    (Or.inl rfl)

/-- Counterexample to claim C7 as stated: the manual trigger returns the same
value, none, for an inspection that exists with a non-in_progress status as
for an identifier with no inspection at all, so the caller cannot tell the
not-eligible condition apart from the not-found condition by the trigger's
report. -/
theorem trigger_not_eligible_conflated_with_not_found :
    trigger_sensor_poll_for_inspection (α := ℕ)
        [⟨1, InspectionStatus.completed, none⟩] (fun i => .ok i.id) 1 = none ∧
    trigger_sensor_poll_for_inspection (α := ℕ)
        ([] : List Inspection) (fun i => .ok i.id) 1 = none :=
  ⟨rfl, rfl⟩

/-- Claim C7 amended: on success the manual trigger returns the created
result; when no inspection has the identifier it returns none; and when the
inspection exists but is not in_progress it also returns none, so the two
failure conditions are reported identically to the caller (the source
distinguishes them only in the log level: error versus warning). -/
theorem trigger_sensor_poll_result_spec {α : Type}
    (inspections : List Inspection) (process : Inspection → Except String α)
    (inspection_id : ℕ) :
    ((∀ i ∈ inspections, i.id ≠ inspection_id) →
       trigger_sensor_poll_for_inspection inspections process inspection_id = none)
    ∧ (∀ i, find_inspection inspections inspection_id = some i →
        i.status ≠ InspectionStatus.in_progress →
        trigger_sensor_poll_for_inspection inspections process inspection_id = none)
    ∧ (∀ i r, find_inspection inspections inspection_id = some i →
        i.status = InspectionStatus.in_progress → process i = .ok r →
        trigger_sensor_poll_for_inspection inspections process inspection_id = some r) := by
  refine ⟨?_, ?_, ?_⟩
  · intro hall
    have hnone : find_inspection inspections inspection_id = none := by
      rw [find_inspection, List.find?_eq_none]
      intro i hi
      simp [hall i hi]
    simp [trigger_sensor_poll_for_inspection, hnone]
  · intro i hfind hst
    simp [trigger_sensor_poll_for_inspection, hfind, hst]
  · intro i r hfind hst hok
    simp [trigger_sensor_poll_for_inspection, hfind, hst, hok, Except.toOption]

/-- Witness for the amended claim C7: an in_progress inspection is polled and
its result returned. -/
theorem trigger_sensor_poll_result_spec_witness :
    trigger_sensor_poll_for_inspection (α := ℕ)
        [⟨7, InspectionStatus.in_progress, none⟩] (fun i => .ok i.id) 7 =
      some 7 :=
  (trigger_sensor_poll_result_spec [⟨7, InspectionStatus.in_progress, none⟩]
      (fun i => .ok i.id) 7).2.2 ⟨7, InspectionStatus.in_progress, none⟩ 7
    rfl rfl rfl

/-- Claim C8: predict persists the sensor row and its prediction row
atomically. On success both rows are committed together (and the prediction
row references the sensor row); on a flush or commit failure the committed
store is exactly what it was before the call, and the failure surfaces as an
error result to the caller. -/
theorem predict_atomic_persistence (db : DBState) (fault : Option DBFault)
    (inspection_id : ℕ) (sensor_data : SensorDataCreate) (variance : ℚ)
    (user_id : ℕ) :
    match predict db fault inspection_id sensor_data variance user_id with
    | .ok (db2, sensor_db, prediction_db) =>
        db2.committed_sensor_data =
          db.committed_sensor_data ++ (db.pending_sensor_data ++ [sensor_db]) ∧
        db2.committed_predictions =
          db.committed_predictions ++ (db.pending_predictions ++ [prediction_db]) ∧
        prediction_db.sensor_data_id = sensor_db.id
    | .error (_, db2) =>
        db2.committed_sensor_data = db.committed_sensor_data ∧
        db2.committed_predictions = db.committed_predictions := by
  rcases fault with _ | f
  · exact ⟨rfl, rfl, rfl⟩
  · cases f
    · exact ⟨rfl, rfl⟩
    · exact ⟨rfl, rfl⟩

/-- Claim C9: one failing inspection does not abort a poll cycle. When a
cycle over in-progress inspections hits an error on exactly one inspection k,
the cycle still completes (one result entry per polled inspection), records
k as skipped, and produces a prediction for every other in-progress
inspection. -/
theorem poll_cycle_failure_isolation {α : Type} (inspections : List Inspection)
    (process : Inspection → Except String α) (k : Inspection) (e : String)
    (hk : k ∈ inspections) (hkst : k.status = InspectionStatus.in_progress)
    (herr : process k = .error e)
    (hok : ∀ j ∈ inspections, j ≠ k → ∃ r, process j = .ok r) :
    (poll_sensors_and_predict inspections process).length =
      (inspections.filter
        (fun i => decide (i.status = InspectionStatus.in_progress))).length
    ∧ (k.id, (none : Option α)) ∈ poll_sensors_and_predict inspections process
    ∧ ∀ j ∈ inspections, j ≠ k → j.status = InspectionStatus.in_progress →
        ∃ r, process j = .ok r ∧
          (j.id, some r) ∈ poll_sensors_and_predict inspections process := by
  refine ⟨List.length_map _ _, ?_, ?_⟩
  · have hkb : decide (k.status = InspectionStatus.in_progress) = true := by
      rw [hkst]
      rfl
    have hmem : k ∈ inspections.filter
        (fun i => decide (i.status = InspectionStatus.in_progress)) :=
      List.mem_filter.mpr ⟨hk, hkb⟩
    have h1 := List.mem_map_of_mem (fun i => (i.id, (process i).toOption)) hmem
    simp only [herr, Except.toOption] at h1
    exact h1
  · intro j hj hne hst
    obtain ⟨r, hr⟩ := hok j hj hne
    refine ⟨r, hr, ?_⟩
    have hjb : decide (j.status = InspectionStatus.in_progress) = true := by
      rw [hst]
      rfl
    have hmem : j ∈ inspections.filter
        (fun i => decide (i.status = InspectionStatus.in_progress)) :=
      List.mem_filter.mpr ⟨hj, hjb⟩
    have h1 := List.mem_map_of_mem (fun i => (i.id, (process i).toOption)) hmem
    simp only [hr, Except.toOption] at h1
    exact h1

/-- Witness for claim C9: three in-progress inspections, the middle one
raising; the two others still get predictions and the cycle completes. -/
theorem poll_cycle_failure_isolation_witness :
    (poll_sensors_and_predict (α := ℕ)
        [⟨1, InspectionStatus.in_progress, none⟩,
         ⟨2, InspectionStatus.in_progress, none⟩,
         ⟨3, InspectionStatus.in_progress, none⟩]
        (fun i => if i.id = 2 then .error "boom" else .ok i.id)).length =
      ([⟨1, InspectionStatus.in_progress, none⟩,
        ⟨2, InspectionStatus.in_progress, none⟩,
        ⟨3, InspectionStatus.in_progress, none⟩].filter
        (fun i : Inspection =>
          decide (i.status = InspectionStatus.in_progress))).length
    ∧ ((2 : ℕ), (none : Option ℕ)) ∈ poll_sensors_and_predict (α := ℕ)
        [⟨1, InspectionStatus.in_progress, none⟩,
         ⟨2, InspectionStatus.in_progress, none⟩,
         ⟨3, InspectionStatus.in_progress, none⟩]
        (fun i => if i.id = 2 then .error "boom" else .ok i.id)
    ∧ ∀ j ∈ [⟨1, InspectionStatus.in_progress, none⟩,
         ⟨2, InspectionStatus.in_progress, none⟩,
         ⟨3, InspectionStatus.in_progress, none⟩],
        j ≠ (⟨2, InspectionStatus.in_progress, none⟩ : Inspection) →
        j.status = InspectionStatus.in_progress →
        ∃ r, (if j.id = 2 then .error "boom" else .ok j.id) = Except.ok r ∧
          (j.id, some r) ∈ poll_sensors_and_predict (α := ℕ)
            [⟨1, InspectionStatus.in_progress, none⟩,
             ⟨2, InspectionStatus.in_progress, none⟩,
             ⟨3, InspectionStatus.in_progress, none⟩]
            (fun i => if i.id = 2 then .error "boom" else .ok i.id) :=
  poll_cycle_failure_isolation
    [⟨1, InspectionStatus.in_progress, none⟩,
     ⟨2, InspectionStatus.in_progress, none⟩,
     ⟨3, InspectionStatus.in_progress, none⟩]
    (fun i => if i.id = 2 then .error "boom" else .ok i.id)
    ⟨2, InspectionStatus.in_progress, none⟩ "boom"
    (by decide) rfl rfl
    (by
      intro j hj hne
      fin_cases hj
      · exact ⟨1, rfl⟩
      · exact absurd rfl hne
      · exact ⟨3, rfl⟩)

/-- Every reachable scheduler state has exactly one live polling loop when
running and none when stopped. -/
theorem SensorPollingScheduler.reachable_loops {s : SensorPollingScheduler}
    (h : s.Reachable) : s.activeLoops = if s.running then 1 else 0 := by
  induction h with
  | init interval => rfl
  | @start t _ ih =>
    by_cases hr : t.running
    · simpa [SensorPollingScheduler.start, hr] using ih
    · simp [SensorPollingScheduler.start, hr] at ih ⊢
      omega
  | @stop t _ ih =>
    by_cases hr : t.running
    · simp [SensorPollingScheduler.stop, hr] at ih ⊢
      omega
    · simpa [SensorPollingScheduler.stop, hr] using ih

/-- Claim C10: the scheduler is a two-state machine on the running flag; from
any reachable state, a second start in a row is a no-op leaving exactly one
active polling loop, and a second stop in a row is a no-op leaving it cleanly
stopped with no loop, raising no exception (both operations are total). -/
theorem scheduler_idempotent_lifecycle (s : SensorPollingScheduler)
    (h : s.Reachable) :
    s.start.start = s.start ∧ s.start.running = true ∧
    s.start.activeLoops = 1 ∧
    s.stop.stop = s.stop ∧ s.stop.running = false ∧
    s.stop.activeLoops = 0 := by
  have hloops := SensorPollingScheduler.reachable_loops h
  by_cases hr : s.running
  · simp [SensorPollingScheduler.start, SensorPollingScheduler.stop, hr,
      hloops]
  · simp [SensorPollingScheduler.start, SensorPollingScheduler.stop, hr,
      hloops]

/-- Witness for claim C10 at the freshly constructed scheduler with the
default 900-second interval. -/
theorem scheduler_idempotent_lifecycle_witness :
    (SensorPollingScheduler.init 900).start.start =
      (SensorPollingScheduler.init 900).start ∧
    (SensorPollingScheduler.init 900).start.running = true ∧
    (SensorPollingScheduler.init 900).start.activeLoops = 1 ∧
    (SensorPollingScheduler.init 900).stop.stop =
      (SensorPollingScheduler.init 900).stop ∧
    (SensorPollingScheduler.init 900).stop.running = false ∧
    (SensorPollingScheduler.init 900).stop.activeLoops = 0 :=
  scheduler_idempotent_lifecycle (SensorPollingScheduler.init 900)
    (SensorPollingScheduler.Reachable.init 900)

end InspectionAI
